import Mathlib

/-!
Verification of the concrete-mix calculators.

The repository holds two small Streamlit apps:

* `streamlit_app.py` — a volumetric mix calculator (absolute-volume
  method): fixed cement content of 400 kg/m³, water from the
  water-cement ratio, the remaining volume split between fine and
  coarse aggregate by a user-chosen fraction.
* `streamlit_app3.py` — an empirical mix calculator (`design_mix`)
  and a sustainability optimizer (`optimize_mix`).

All quantities in the source are Python floats computed by closed-form
arithmetic; we embed them over `ℚ`, which realizes every stated
identity exactly. The only non-determinism in the source is the pair
of `np.random.uniform` draws in `optimize_mix`; we pass those draws as
explicit parameters `r1` (drawn from [0, 2]) and `r2` (drawn from
[-10, 10]).
-/

namespace ConcreteMix

/-! ### Volumetric mix calculator (`streamlit_app.py`) -/

/-- Specific gravity of cement (`SG_cement = 3.15`). -/
def SG_cement : ℚ := 3.15

/-- Specific gravity of fine aggregate (`SG_fine = 2.65`). -/
def SG_fine : ℚ := 2.65

/-- Specific gravity of coarse aggregate (`SG_coarse = 2.70`). -/
def SG_coarse : ℚ := 2.70

/-- Specific gravity of water (`SG_water = 1.00`). -/
def SG_water : ℚ := 1.00

/-- `cement_content = 400` kg/m³, a fixed initial value in the source. -/
def cement_content : ℚ := 400

/-- `water_content = cement_content * w_c_ratio`. -/
def water_content (w_c_ratio : ℚ) : ℚ := cement_content * w_c_ratio

/-- `volume_cement = cement_content / (SG_cement * 1000)`. -/
def volume_cement : ℚ := cement_content / (SG_cement * 1000)

/-- `volume_water = water_content / (SG_water * 1000)`. -/
def volume_water (w_c_ratio : ℚ) : ℚ := water_content w_c_ratio / (SG_water * 1000)

/-- `volume_aggregates = 1 - (volume_cement + volume_water)`. -/
def volume_aggregates (w_c_ratio : ℚ) : ℚ :=
  1 - (volume_cement + volume_water w_c_ratio)

/-- `coarse_ratio = 1 - fine_ratio`. -/
def coarse_ratio (fine_ratio : ℚ) : ℚ := 1 - fine_ratio

/-- `fine_agg_mass = volume_aggregates * fine_ratio * SG_fine * 1000`. -/
def fine_agg_mass (w_c_ratio fine_ratio : ℚ) : ℚ :=
  volume_aggregates w_c_ratio * fine_ratio * SG_fine * 1000

/-- `coarse_agg_mass = volume_aggregates * coarse_ratio * SG_coarse * 1000`. -/
def coarse_agg_mass (w_c_ratio fine_ratio : ℚ) : ℚ :=
  volume_aggregates w_c_ratio * coarse_ratio fine_ratio * SG_coarse * 1000

/-- The four masses the volumetric calculator displays, bundled as one
pure function of its two varying inputs:
(cement, water, fine aggregate, coarse aggregate) in kg/m³. -/
def computeVolumetricMix (w_c_ratio fine_ratio : ℚ) : ℚ × ℚ × ℚ × ℚ :=
  (cement_content, water_content w_c_ratio,
   fine_agg_mass w_c_ratio fine_ratio, coarse_agg_mass w_c_ratio fine_ratio)

/-! ### Empirical mix calculator (`streamlit_app3.py`, `design_mix`) -/

/-- The record returned by `design_mix` (keys of its Python dict). -/
structure MixResult where
  cement : ℚ
  water : ℚ
  fine_agg : ℚ
  coarse_agg : ℚ
  w_c_ratio : ℚ
deriving DecidableEq, Repr

/-- `design_mix(strength, slump)` from `streamlit_app3.py`:
simplified rule-of-thumb mix design (kg per m³). -/
def design_mix (strength slump : ℚ) : MixResult :=
  let cement := 350 + (strength - 20) * 5
  let water := 180 + (slump / 150) * 20
  let fine_agg := 700 - (slump / 150) * 50
  let coarse_agg := 1100 - (strength - 20) * 10
  let w_c_ratio := water / cement
  { cement := cement, water := water, fine_agg := fine_agg,
    coarse_agg := coarse_agg, w_c_ratio := w_c_ratio }

/-! ### Sustainability optimizer (`streamlit_app3.py`, `optimize_mix`) -/

/-- The record returned by `optimize_mix` (keys of its Python dict). -/
structure OptimizedMix where
  cement : ℚ
  scms : ℚ
  water : ℚ
  fine_nat : ℚ
  fine_recycled : ℚ
  coarse_nat : ℚ
  coarse_recycled : ℚ
  w_c_ratio : ℚ
  new_strength : ℚ
  new_slump : ℚ
  co2_reduction : ℚ
  cost_reduction : ℚ
deriving DecidableEq, Repr

/-- `optimize_mix(base_mix, strength, slump)` from `streamlit_app3.py`.
The source draws `np.random.uniform(0, 2)` and
`np.random.uniform(-10, 10)`; we pass those two draws explicitly as
`r1` and `r2`, so the embedded function is pure. -/
def optimize_mix (base_mix : MixResult) (strength slump r1 r2 : ℚ) : OptimizedMix :=
  let cement := base_mix.cement * 0.7
  let scms := base_mix.cement * 0.3
  let coarse_nat := base_mix.coarse_agg * 0.8
  let coarse_recycled := base_mix.coarse_agg * 0.2
  let fine_nat := base_mix.fine_agg * 0.85
  let fine_recycled := base_mix.fine_agg * 0.15
  let water := base_mix.water * 1.02
  let new_strength := strength - r1
  let new_slump := slump + r2
  let co2_reduction := 25
  let cost_reduction := 15
  { cement := cement, scms := scms, water := water,
    fine_nat := fine_nat, fine_recycled := fine_recycled,
    coarse_nat := coarse_nat, coarse_recycled := coarse_recycled,
    w_c_ratio := water / (cement + scms),
    new_strength := new_strength, new_slump := new_slump,
    co2_reduction := co2_reduction, cost_reduction := cost_reduction }

/-- The fields of an `OptimizedMix` that do not depend on the two
random draws, bundled as a tuple (everything except `new_strength`
and `new_slump`). -/
def nonRandomFields (o : OptimizedMix) :
    ℚ × ℚ × ℚ × ℚ × ℚ × ℚ × ℚ × ℚ × ℚ × ℚ :=
  (o.cement, o.scms, o.water, o.fine_nat, o.fine_recycled,
   o.coarse_nat, o.coarse_recycled, o.w_c_ratio,
   o.co2_reduction, o.cost_reduction)

/-! ### Claims -/

/-- C1: for every water-cement ratio in [0.3, 0.7] and every fine-aggregate
fraction in [0.3, 0.6], the absolute-volume method balances: cement volume,
water volume, and the two aggregate volumes (each recovered from its mass
via `mass / (SG * 1000)`) sum exactly to 1 m³ in rational arithmetic. -/
theorem volumetric_volume_balance (w_c_ratio fine_ratio : ℚ)
    (hw1 : 0.3 ≤ w_c_ratio) (hw2 : w_c_ratio ≤ 0.7)
    (hf1 : 0.3 ≤ fine_ratio) (hf2 : fine_ratio ≤ 0.6) :
    volume_cement + volume_water w_c_ratio
      + fine_agg_mass w_c_ratio fine_ratio / (SG_fine * 1000)
      + coarse_agg_mass w_c_ratio fine_ratio / (SG_coarse * 1000) = 1 := by
  unfold fine_agg_mass coarse_agg_mass volume_aggregates coarse_ratio
    volume_cement volume_water water_content cement_content
    SG_cement SG_fine SG_coarse SG_water
  norm_num
  ring

/-- Witness for C1 at `w_c_ratio = 0.5`, `fine_ratio = 0.4`. -/
theorem volumetric_volume_balance_witness :
    volume_cement + volume_water 0.5
      + fine_agg_mass 0.5 0.4 / (SG_fine * 1000)
      + coarse_agg_mass 0.5 0.4 / (SG_coarse * 1000) = 1 :=
  volumetric_volume_balance 0.5 0.4 (by norm_num) (by norm_num)
    (by norm_num) (by norm_num)

/-- C2: for every water-cement ratio in [0.3, 0.7] and every fine-aggregate
fraction in [0.3, 0.6], all four masses of the volumetric mix (cement,
water, fine aggregate, coarse aggregate) are non-negative. -/
theorem volumetric_masses_nonneg (w_c_ratio fine_ratio : ℚ)
    (hw1 : 0.3 ≤ w_c_ratio) (hw2 : w_c_ratio ≤ 0.7)
    (hf1 : 0.3 ≤ fine_ratio) (hf2 : fine_ratio ≤ 0.6) :
    0 ≤ cement_content ∧ 0 ≤ water_content w_c_ratio ∧
    0 ≤ fine_agg_mass w_c_ratio fine_ratio ∧
    0 ≤ coarse_agg_mass w_c_ratio fine_ratio := by
  unfold fine_agg_mass coarse_agg_mass volume_aggregates coarse_ratio
    volume_cement volume_water water_content cement_content
    SG_cement SG_fine SG_coarse SG_water
  norm_num
  refine ⟨by linarith, ?_, ?_⟩ <;> nlinarith

/-- Witness for C2 at `w_c_ratio = 0.5`, `fine_ratio = 0.4`. -/
theorem volumetric_masses_nonneg_witness :
    0 ≤ cement_content ∧ 0 ≤ water_content 0.5 ∧
    0 ≤ fine_agg_mass 0.5 0.4 ∧ 0 ≤ coarse_agg_mass 0.5 0.4 :=
  volumetric_masses_nonneg 0.5 0.4 (by norm_num) (by norm_num)
    (by norm_num) (by norm_num)

/-- C3: the empirical calculator returns exactly the four linear formulas
and the quotient water/cement, and at `strength = 30`, `slump = 75` it
returns cement 400, water 190, fine aggregate 675, coarse aggregate 1000
and w/c ratio 0.475. -/
theorem design_mix_formulas :
    (∀ strength slump : ℚ,
        (design_mix strength slump).cement = 350 + (strength - 20) * 5 ∧
        (design_mix strength slump).water = 180 + slump / 150 * 20 ∧
        (design_mix strength slump).fine_agg = 700 - slump / 150 * 50 ∧
        (design_mix strength slump).coarse_agg = 1100 - (strength - 20) * 10 ∧
        (design_mix strength slump).w_c_ratio =
          (design_mix strength slump).water / (design_mix strength slump).cement) ∧
    design_mix 30 75 =
      { cement := 400, water := 190, fine_agg := 675,
        coarse_agg := 1000, w_c_ratio := 0.475 } :=
  ⟨fun _ _ => ⟨rfl, rfl, rfl, rfl, rfl⟩,
   by norm_num [design_mix, MixResult.mk.injEq]⟩

/-- C4: the optimizer's non-random fields are exactly: 70 % / 30 % split of
base cement into retained cement and SCMs, 80 % / 20 % split of coarse
aggregate, 85 % / 15 % split of fine aggregate, water scaled by 1.02, w/c
ratio equal to the adjusted water over (retained cement + SCMs), and the
fixed constants 25 (emissions reduction) and 15 (cost reduction). -/
theorem optimize_mix_nonrandom_fields (base : MixResult) (strength slump r1 r2 : ℚ) :
    (optimize_mix base strength slump r1 r2).cement = base.cement * 0.7 ∧
    (optimize_mix base strength slump r1 r2).scms = base.cement * 0.3 ∧
    (optimize_mix base strength slump r1 r2).coarse_nat = base.coarse_agg * 0.8 ∧
    (optimize_mix base strength slump r1 r2).coarse_recycled = base.coarse_agg * 0.2 ∧
    (optimize_mix base strength slump r1 r2).fine_nat = base.fine_agg * 0.85 ∧
    (optimize_mix base strength slump r1 r2).fine_recycled = base.fine_agg * 0.15 ∧
    (optimize_mix base strength slump r1 r2).water = base.water * 1.02 ∧
    (optimize_mix base strength slump r1 r2).w_c_ratio =
      (optimize_mix base strength slump r1 r2).water /
        ((optimize_mix base strength slump r1 r2).cement +
          (optimize_mix base strength slump r1 r2).scms) ∧
    (optimize_mix base strength slump r1 r2).co2_reduction = 25 ∧
    (optimize_mix base strength slump r1 r2).cost_reduction = 15 :=
  ⟨rfl, rfl, rfl, rfl, rfl, rfl, rfl, rfl, rfl, rfl⟩

/-- C5: for any admissible random draws (`r1 ∈ [0, 2]`, `r2 ∈ [-10, 10]`),
the optimizer's estimated strength equals `strength - r1` and lies in
`[strength - 2, strength]`, and its estimated slump equals `slump + r2`
and lies in `[slump - 10, slump + 10]`. -/
theorem optimize_mix_estimated_properties (base : MixResult) (strength slump r1 r2 : ℚ)
    (h1 : 0 ≤ r1) (h2 : r1 ≤ 2) (h3 : -10 ≤ r2) (h4 : r2 ≤ 10) :
    (optimize_mix base strength slump r1 r2).new_strength = strength - r1 ∧
    strength - 2 ≤ (optimize_mix base strength slump r1 r2).new_strength ∧
    (optimize_mix base strength slump r1 r2).new_strength ≤ strength ∧
    (optimize_mix base strength slump r1 r2).new_slump = slump + r2 ∧
    slump - 10 ≤ (optimize_mix base strength slump r1 r2).new_slump ∧
    (optimize_mix base strength slump r1 r2).new_slump ≤ slump + 10 := by
  refine ⟨rfl, ?_, ?_, rfl, ?_, ?_⟩ <;> simp only [optimize_mix] <;> linarith

/-- Witness for C5 at `strength = 30`, `slump = 75` with draws `r1 = 1`,
`r2 = 0`: estimated strength in [28, 30] and estimated slump in [65, 85]. -/
theorem optimize_mix_estimated_properties_witness :
    (optimize_mix (design_mix 30 75) 30 75 1 0).new_strength = 30 - 1 ∧
    30 - 2 ≤ (optimize_mix (design_mix 30 75) 30 75 1 0).new_strength ∧
    (optimize_mix (design_mix 30 75) 30 75 1 0).new_strength ≤ 30 ∧
    (optimize_mix (design_mix 30 75) 30 75 1 0).new_slump = 75 + 0 ∧
    75 - 10 ≤ (optimize_mix (design_mix 30 75) 30 75 1 0).new_slump ∧
    (optimize_mix (design_mix 30 75) 30 75 1 0).new_slump ≤ 75 + 10 :=
  optimize_mix_estimated_properties (design_mix 30 75) 30 75 1 0
    (by norm_num) (by norm_num) (by norm_num) (by norm_num)

/-- C6: both calculators are deterministic — equal inputs give equal
outputs — and in the optimizer only the two randomized fields depend on
the random draws: all other fields agree across any two draws. -/
theorem calculators_deterministic (w f w' f' s l s' l' : ℚ)
    (hw : w = w') (hf : f = f') (hs : s = s') (hl : l = l') :
    computeVolumetricMix w f = computeVolumetricMix w' f' ∧
    design_mix s l = design_mix s' l' ∧
    ∀ (base : MixResult) (r1 r2 r1' r2' : ℚ),
      nonRandomFields (optimize_mix base s l r1 r2) =
        nonRandomFields (optimize_mix base s' l' r1' r2') := by
  subst hw hf hs hl
  exact ⟨rfl, rfl, fun _ _ _ _ _ => rfl⟩

/-- Witness for C6 at `w_c_ratio = 0.5`, `fine_ratio = 0.4`,
`strength = 30`, `slump = 75`, with two distinct random draws. -/
theorem calculators_deterministic_witness :
    computeVolumetricMix 0.5 0.4 = computeVolumetricMix 0.5 0.4 ∧
    design_mix 30 75 = design_mix 30 75 ∧
    nonRandomFields (optimize_mix (design_mix 30 75) 30 75 1 0) =
      nonRandomFields (optimize_mix (design_mix 30 75) 30 75 2 (-5)) :=
  ⟨(calculators_deterministic 0.5 0.4 0.5 0.4 30 75 30 75 rfl rfl rfl rfl).1,
   (calculators_deterministic 0.5 0.4 0.5 0.4 30 75 30 75 rfl rfl rfl rfl).2.1,
   (calculators_deterministic 0.5 0.4 0.5 0.4 30 75 30 75 rfl rfl rfl rfl).2.2
     (design_mix 30 75) 1 0 2 (-5)⟩

/-- C7: over the selectable ranges `strength ∈ [20, 60]` and
`slump ∈ [25, 150]`, the empirical calculator produces no negative
masses. -/
theorem empirical_masses_nonneg (strength slump : ℚ)
    (hs1 : 20 ≤ strength) (hs2 : strength ≤ 60)
    (hl1 : 25 ≤ slump) (hl2 : slump ≤ 150) :
    0 ≤ (design_mix strength slump).cement ∧
    0 ≤ (design_mix strength slump).water ∧
    0 ≤ (design_mix strength slump).fine_agg ∧
    0 ≤ (design_mix strength slump).coarse_agg := by
  simp only [design_mix]
  refine ⟨by linarith, by linarith, by linarith, by linarith⟩

/-- Witness for C7 at the two boundary points `strength = 20, slump = 25`
and `strength = 60, slump = 150`. -/
theorem empirical_masses_nonneg_witness :
    (0 ≤ (design_mix 20 25).cement ∧ 0 ≤ (design_mix 20 25).water ∧
     0 ≤ (design_mix 20 25).fine_agg ∧ 0 ≤ (design_mix 20 25).coarse_agg) ∧
    (0 ≤ (design_mix 60 150).cement ∧ 0 ≤ (design_mix 60 150).water ∧
     0 ≤ (design_mix 60 150).fine_agg ∧ 0 ≤ (design_mix 60 150).coarse_agg) :=
  ⟨empirical_masses_nonneg 20 25 (by norm_num) (by norm_num)
     (by norm_num) (by norm_num),
   empirical_masses_nonneg 60 150 (by norm_num) (by norm_num)
     (by norm_num) (by norm_num)⟩

/-- C8: in the volumetric calculator the cement content is the constant
400 kg/m³, the water mass is cement times the water-cement ratio, and at
`w_c_ratio = 0.5` the water mass is exactly 200 kg. -/
theorem volumetric_cement_and_water :
    cement_content = 400 ∧
    (∀ w_c_ratio : ℚ, water_content w_c_ratio = cement_content * w_c_ratio) ∧
    water_content 0.5 = 200 :=
  ⟨rfl, fun _ => rfl, by norm_num [water_content, cement_content]⟩

/-- C9: the optimizer conserves mass in each substitution: retained
cement + SCMs equals base cement, natural + recycled coarse aggregate
equals base coarse aggregate, and natural + recycled fine aggregate
equals base fine aggregate. -/
theorem optimize_mix_mass_conservation (base : MixResult) (strength slump r1 r2 : ℚ) :
    (optimize_mix base strength slump r1 r2).cement +
      (optimize_mix base strength slump r1 r2).scms = base.cement ∧
    (optimize_mix base strength slump r1 r2).coarse_nat +
      (optimize_mix base strength slump r1 r2).coarse_recycled = base.coarse_agg ∧
    (optimize_mix base strength slump r1 r2).fine_nat +
      (optimize_mix base strength slump r1 r2).fine_recycled = base.fine_agg := by
  refine ⟨?_, ?_, ?_⟩ <;> simp only [optimize_mix] <;> ring

/-- C10: for any base mix with strictly positive cement whose recorded w/c
ratio is water over cement (as the empirical calculator produces), the
optimized mix's w/c ratio is exactly 1.02 times the base w/c ratio. -/
theorem optimize_mix_wcr_scaling (base : MixResult) (strength slump r1 r2 : ℚ)
    (hc : 0 < base.cement) (hwc : base.w_c_ratio = base.water / base.cement) :
    (optimize_mix base strength slump r1 r2).w_c_ratio = 1.02 * base.w_c_ratio := by
  have hne : base.cement ≠ 0 := ne_of_gt hc
  simp only [optimize_mix, hwc]
  field_simp
  ring

/-- Witness for C10 at the base mix `design_mix 30 75` (cement 400 > 0). -/
theorem optimize_mix_wcr_scaling_witness :
    (optimize_mix (design_mix 30 75) 30 75 1 0).w_c_ratio =
      1.02 * (design_mix 30 75).w_c_ratio :=
  optimize_mix_wcr_scaling (design_mix 30 75) 30 75 1 0
    (by norm_num [design_mix]) (by norm_num [design_mix])

end ConcreteMix
